import Mathlib

/-
Shallow embedding of `src/app.py` (the code-interpreter service).

The three units of the program are embedded as pure Lean functions:

  * `execute_python_code` (src/app.py lines 51-69): the Executor.  The
    evaluation of the submitted code by CPython's `exec` is an external
    effect; its observable behaviour is the data type `CodeBehavior`
    (what the code writes to the current `sys.stdout`, and whether it
    completes normally or raises).  The process-wide `sys.stdout`
    variable is the state component `PyState`.

  * `analyze_error_with_ai` (src/app.py lines 75-136): the Failure
    Localizer.  The external collaborators — `os.environ`, the
    `google.genai` client round-trip, and `json.loads` applied to the
    returned text — are abstracted by the parameters `apiKey` and
    `AIOutcome`.  The `google.genai` library reports its failures by
    raising subclasses of `Exception`; an `AIOutcome.fail e` records the
    raised exception `e`.

  * `code_interpreter` (src/app.py lines 142-163): the Request Handler
    for `POST /code-interpreter`.

Python exceptions are modelled by `PyExc`; a raising computation returns
`Except PyExc α`.  The flag `PyExc.isException` records whether the
exception's class derives from `Exception` — the class caught by the
`except Exception` clauses of the source — as opposed to deriving only
from `BaseException` (as `SystemExit` and `KeyboardInterrupt` do).
JSON values are modelled by `Json`; Python's untyped returns from
`data.get("error_lines", [])` are therefore `Json` values.
-/

namespace CodeInterp

/-- A Python exception value, as observable by the handlers in
`src/app.py`: `isException` is whether its class derives from
`Exception` (the class tested by `except Exception`), `excName` its
class name, and `trace` the text `traceback.format_exc()` renders for
it while it is being handled. -/
structure PyExc where
  isException : Bool
  excName : String
  trace : String
deriving Repr, DecidableEq

/-- Observable behaviour of `exec(code)` for one submission: `writes` is
the text the submitted code writes to the current `sys.stdout` before
finishing, and `outcome` is `none` on normal completion or `some e` when
evaluation raises the exception `e`. -/
structure CodeBehavior where
  writes : String
  outcome : Option PyExc
deriving Repr, DecidableEq

/-- The value of the process-wide `sys.stdout`: the real standard output
stream, or an in-memory `StringIO` buffer with its current contents. -/
inductive OutStream where
  | real
  | buffer (contents : String)
deriving Repr, DecidableEq

/-- Process state threaded through the Executor: the current value of
the global `sys.stdout` variable. -/
structure PyState where
  stdout : OutStream
deriving Repr, DecidableEq

/-- The dictionary `{"success": ..., "output": ...}` returned by
`execute_python_code`. -/
structure ExecResult where
  success : Bool
  output : String
deriving Repr, DecidableEq

/-- Writing text to the current `sys.stdout`: appended when it is a
`StringIO` buffer; writes to the real stream are outside the modelled
state. -/
def writeOut (st : OutStream) (t : String) : OutStream :=
  match st with
  | OutStream.real => OutStream.real
  | OutStream.buffer c => OutStream.buffer (c ++ t)

/-- src/app.py lines 51-69.  Saves `sys.stdout`, redirects it to a fresh
`StringIO`, runs `exec(code)` (whose observable behaviour is `beh`), and
returns `{"success": True, "output": <buffer>}` on normal completion or
`{"success": False, "output": traceback.format_exc()}` when an
`Exception` was raised; an exception not deriving from `Exception`
escapes the `except Exception` clause and propagates.  The `finally`
clause restores `sys.stdout` on every path. -/
def execute_python_code (beh : CodeBehavior) (s : PyState) :
    Except PyExc ExecResult × PyState :=
  let old_stdout := s.stdout
  let s1 : PyState := { stdout := OutStream.buffer "" }
  let s2 : PyState := { stdout := writeOut s1.stdout beh.writes }
  match beh.outcome with
  | none =>
      let output :=
        match s2.stdout with
        | OutStream.buffer c => c
        | OutStream.real => ""
      (Except.ok { success := true, output := output },
       { s2 with stdout := old_stdout })
  | some e =>
      if e.isException then
        (Except.ok { success := false, output := e.trace },
         { s2 with stdout := old_stdout })
      else
        (Except.error e, { s2 with stdout := old_stdout })

/-- A JSON value, the result of a successful `json.loads`. -/
inductive Json where
  | null
  | bool (b : Bool)
  | num (n : Int)
  | str (s : String)
  | arr (elems : List Json)
  | obj (fields : List (String × Json))
deriving Repr

/-- A Python list of integers as a JSON value. -/
def intArr (l : List Int) : Json :=
  Json.arr (l.map Json.num)

/-- Python `data.get(k)` on the dictionary modelled by `fields` (a
`json.loads` dictionary has pairwise distinct keys). -/
def jsonGet (fields : List (String × Json)) (k : String) : Option Json :=
  match fields with
  | [] => none
  | (k', v) :: rest => if k' = k then some v else jsonGet rest k

/-- Observable outcome of the single `client.models.generate_content`
round-trip of src/app.py lines 103-119 combined with
`json.loads(response.text)` at line 123: `fail e` when the call raises
the exception `e`; `respond none` when the call returns but its text
does not parse as JSON (`json.loads` raises); `respond (some j)` when
the text parses to the JSON value `j`. -/
inductive AIOutcome where
  | fail (e : PyExc)
  | respond (parsed : Option Json)
deriving Repr

/-- Numeric value of a run of decimal digit characters (Python
`int(group(1))`). -/
def digitsToNat (ds : List Char) : Nat :=
  ds.foldl (fun a c => 10 * a + (c.toNat - 48)) 0

/-- One attempt of the pattern `line (\d+)` anchored at the start of
`cs`: the literal `line `, then a maximal nonempty run of digits. -/
def lineMatchAt (cs : List Char) : Option Nat :=
  match cs with
  | 'l' :: 'i' :: 'n' :: 'e' :: ' ' :: rest =>
      let ds := rest.takeWhile Char.isDigit
      if ds = [] then none else some (digitsToNat ds)
  | _ => none

/-- `re.search(r'line (\d+)', tb)`: the leftmost match, returning
`int(group(1))`. -/
def searchLine : List Char → Option Nat
  | [] => none
  | c :: cs =>
      match lineMatchAt (c :: cs) with
      | some n => some n
      | none => searchLine cs

/-- src/app.py lines 131-136: the fallback extraction — the first
`line <digits>` match in the traceback as a one-element list, or the
empty list when the pattern does not occur. -/
def fallbackLines (tb : String) : List Int :=
  match searchLine tb.data with
  | some n => [(n : Int)]
  | none => []

/-- The truthiness test `if not api_key` at src/app.py line 79:
`os.environ.get("GEMINI_API_KEY")` is `None` when the variable is
unset, and both `None` and the empty string are falsy. -/
def keyPresent : Option String → Bool
  | none => false
  | some k => !(k == "")

/-- src/app.py lines 75-136.  With no (or an empty) credential, logs and
returns `[]` at once.  Otherwise the `try` at line 102 performs the AI
round-trip: a raised `Exception` is caught at line 128 and a JSON-parse
failure or a `.get` on a non-dictionary value is swallowed by the bare
`except` at line 125, all falling through to the traceback fallback of
lines 131-136; a successfully parsed dictionary returns its
`error_lines` value verbatim (`[]` when the field is absent).  An
exception from the round-trip not deriving from `Exception` escapes the
`except Exception` clause and propagates. -/
def analyze_error_with_ai (apiKey : Option String) (ai : AIOutcome)
    (code tb : String) : Except PyExc Json :=
  if keyPresent apiKey = false then
    Except.ok (Json.arr [])
  else
    match ai with
    | AIOutcome.fail e =>
        if e.isException then Except.ok (intArr (fallbackLines tb))
        else Except.error e
    | AIOutcome.respond none => Except.ok (intArr (fallbackLines tb))
    | AIOutcome.respond (some j) =>
        match j with
        | Json.obj fields =>
            match jsonGet fields "error_lines" with
            | some v => Except.ok v
            | none => Except.ok (Json.arr [])
        | _ => Except.ok (intArr (fallbackLines tb))

/-- The response dictionary built by the endpoint: the `error` field is
whatever Python value `analyze_error_with_ai` returned (a `Json`
value), `result` the executor's output text. -/
structure CodeResponse where
  error : Json
  result : String
deriving Repr

/-- src/app.py lines 142-163, the `POST /code-interpreter` handler:
run the Executor on the submission; on success answer
`{"error": [], "result": <output>}`; on failure answer
`{"error": <localizer result>, "result": <trace>}`.  `beh` is the
observable behaviour of `exec` on `code`, and `ai` the outcome of the
AI round-trip should it be reached. -/
def code_interpreter (apiKey : Option String) (ai : AIOutcome)
    (code : String) (beh : CodeBehavior) (s : PyState) :
    Except PyExc CodeResponse × PyState :=
  match execute_python_code beh s with
  | (Except.error e, s') => (Except.error e, s')
  | (Except.ok execution, s') =>
      if execution.success then
        (Except.ok { error := Json.arr [], result := execution.output }, s')
      else
        match analyze_error_with_ai apiKey ai code execution.output with
        | Except.error e => (Except.error e, s')
        | Except.ok error_lines =>
            (Except.ok { error := error_lines, result := execution.output }, s')

/-- The text `traceback.format_exc()` produces at src/app.py line 65
when `exec("print(1/0)")` raises: CPython evaluates `1/0` before
`print` writes anything, raising `ZeroDivisionError`, and the rendered
backtrace lists each frame the exception passed through, from the frame
holding the `try` downwards — first the `exec(code)` call at line 60 of
src/app.py, then line 1 of the executed `<string>` (whose source text
is unavailable to `linecache`, so no code line is shown for it).  The
first `line <digits>` occurrence in the text is therefore `line 60`. -/
def divTrace : String :=
  "Traceback (most recent call last):\n  File \"/app/app.py\", line 60, in execute_python_code\n    exec(code)\n  File \"<string>\", line 1, in <module>\nZeroDivisionError: division by zero\n"

/-- The exception raised by `exec("print(1/0)")`: `ZeroDivisionError`
derives from `Exception`, and `divTrace` is its rendered backtrace. -/
def zeroDivExc : PyExc :=
  { isException := true
    excName := "ZeroDivisionError"
    trace := divTrace }

/-- Observable behaviour of `exec("print(1/0)")`: nothing is written to
the redirected stream (the fault precedes the `print`), and evaluation
raises `zeroDivExc`. -/
def behPrintDiv : CodeBehavior :=
  { writes := "", outcome := some zeroDivExc }

/-- The exception raised by `exec("raise SystemExit")`: `SystemExit`
derives from `BaseException` but not from `Exception`, so the
`except Exception` clause at src/app.py line 64 does not catch it. -/
def sysExitExc : PyExc :=
  { isException := false
    excName := "SystemExit"
    trace := "Traceback (most recent call last):\n  File \"/app/app.py\", line 60, in execute_python_code\n    exec(code)\n  File \"<string>\", line 1, in <module>\nSystemExit\n" }

/-- A failed `generate_content` round-trip: the `google.genai` client
reports its errors (network failures, service errors) by raising
subclasses of `Exception`. -/
def netExc : PyExc :=
  { isException := true, excName := "ServerError", trace := "" }

/-- The AI round-trip fails only with `Exception`-derived errors, as the
`google.genai` client does; an externally injected interrupt such as
`KeyboardInterrupt` is not a failure mode of the call itself. -/
def aiNoBaseExc : AIOutcome → Prop
  | AIOutcome.fail e => e.isException = true
  | AIOutcome.respond _ => True

/-- Whether `needle` occurs at the start of `hay`. -/
def beginsWith : List Char → List Char → Bool
  | _, [] => true
  | [], _ :: _ => false
  | a :: as, b :: bs => a == b && beginsWith as bs

/-- Whether `needle` occurs anywhere inside `hay`. -/
def containsChars : List Char → List Char → Bool
  | [], needle => needle.isEmpty
  | c :: cs, needle => beginsWith (c :: cs) needle || containsChars cs needle

/-- Whether the text `needle` occurs anywhere inside the text `hay`. -/
def containsText (hay needle : String) : Bool :=
  containsChars hay.data needle.data

/-- The fallback value is the empty JSON array or a one-element JSON
array holding a non-negative integer. -/
theorem fallback_shape (tb : String) :
    intArr (fallbackLines tb) = Json.arr []
      ∨ ∃ n : Nat, intArr (fallbackLines tb) = Json.arr [Json.num (n : Int)] := by
  cases h : searchLine tb.data with
  | none => left; simp [fallbackLines, h, intArr]
  | some n => right; exact ⟨n, by simp [fallbackLines, h, intArr]⟩

/-- The fallback value, written out by cases on the trace scan. -/
theorem intArr_fallback (tb : String) :
    intArr (fallbackLines tb)
      = (match searchLine tb.data with
         | some n => Json.arr [Json.num (n : Int)]
         | none => Json.arr []) := by
  cases h : searchLine tb.data <;> simp [fallbackLines, h, intArr]

/-- C1 counterexample: with no credential configured and a trace whose
first `line <L>` pattern is `line 5`, the localizer returns `[]` and
not `[5]` as the claim predicts: src/app.py lines 79-81 return `[]`
immediately on the missing-credential path, without applying the
trace-pattern fallback of lines 131-136. -/
theorem C1_counterexample :
    analyze_error_with_ai none (AIOutcome.respond none) "" "line 5"
        = Except.ok (Json.arr [])
      ∧ fallbackLines "line 5" = [5]
      ∧ Json.arr [] ≠ intArr [5] :=
  ⟨rfl, rfl, by simp [intArr]⟩

/-- C1 (amended): when no AI credential is configured (the environment
variable unset or empty), the localizer returns the empty sequence
immediately for every code and trace, and the AI service is not
invoked: the result is the same for every round-trip outcome `ai`. -/
theorem C1_no_credential (apiKey : Option String) (ai : AIOutcome)
    (code tb : String) (h : keyPresent apiKey = false) :
    analyze_error_with_ai apiKey ai code tb = Except.ok (Json.arr []) := by
  simp [analyze_error_with_ai, h]

/-- C1 witness: `C1_no_credential` at an unset credential, a failing
round-trip and a trace holding a `line 9` pattern. -/
theorem C1_no_credential_witness :
    keyPresent none = false
      ∧ analyze_error_with_ai none (AIOutcome.fail netExc) "x" "line 9"
          = Except.ok (Json.arr []) :=
  ⟨rfl, C1_no_credential none (AIOutcome.fail netExc) "x" "line 9" rfl⟩

/-- C2: the localizer never raises to its caller: for every credential
state, every round-trip outcome whose failures are `Exception`-derived
(as the `google.genai` client's are), and every code and trace,
`analyze_error_with_ai` returns a value; moreover on every path other
than the verbatim `error_lines` extraction that value is the empty
sequence or a one-element sequence holding a non-negative integer. -/
theorem C2_never_raises (apiKey : Option String) (ai : AIOutcome)
    (code tb : String) (h : aiNoBaseExc ai) :
    ∃ v, analyze_error_with_ai apiKey ai code tb = Except.ok v
      ∧ (v = Json.arr []
          ∨ (∃ n : Nat, v = Json.arr [Json.num (n : Int)])
          ∨ ∃ fields w, ai = AIOutcome.respond (some (Json.obj fields))
              ∧ jsonGet fields "error_lines" = some w ∧ v = w) := by
  have hfb : intArr (fallbackLines tb) = Json.arr []
      ∨ (∃ n : Nat, intArr (fallbackLines tb) = Json.arr [Json.num (n : Int)]) :=
    fallback_shape tb
  by_cases hk : keyPresent apiKey = false
  · exact ⟨Json.arr [], by simp [analyze_error_with_ai, hk], Or.inl rfl⟩
  · cases ai with
    | fail e =>
        have he : e.isException = true := h
        refine ⟨intArr (fallbackLines tb), by simp [analyze_error_with_ai, hk, he], ?_⟩
        rcases hfb with h1 | ⟨n, h2⟩
        · exact Or.inl h1
        · exact Or.inr (Or.inl ⟨n, h2⟩)
    | respond p =>
        cases p with
        | none =>
            refine ⟨intArr (fallbackLines tb), by simp [analyze_error_with_ai, hk], ?_⟩
            rcases hfb with h1 | ⟨n, h2⟩
            · exact Or.inl h1
            · exact Or.inr (Or.inl ⟨n, h2⟩)
        | some j =>
            cases j with
            | obj fields =>
                cases hg : jsonGet fields "error_lines" with
                | some v =>
                    exact ⟨v, by simp [analyze_error_with_ai, hk, hg],
                      Or.inr (Or.inr ⟨fields, v, rfl, hg, rfl⟩)⟩
                | none =>
                    exact ⟨Json.arr [], by simp [analyze_error_with_ai, hk, hg],
                      Or.inl rfl⟩
            | null =>
                refine ⟨intArr (fallbackLines tb), by simp [analyze_error_with_ai, hk], ?_⟩
                rcases hfb with h1 | ⟨n, h2⟩
                · exact Or.inl h1
                · exact Or.inr (Or.inl ⟨n, h2⟩)
            | bool b =>
                refine ⟨intArr (fallbackLines tb), by simp [analyze_error_with_ai, hk], ?_⟩
                rcases hfb with h1 | ⟨n, h2⟩
                · exact Or.inl h1
                · exact Or.inr (Or.inl ⟨n, h2⟩)
            | num m =>
                refine ⟨intArr (fallbackLines tb), by simp [analyze_error_with_ai, hk], ?_⟩
                rcases hfb with h1 | ⟨n, h2⟩
                · exact Or.inl h1
                · exact Or.inr (Or.inl ⟨n, h2⟩)
            | str t =>
                refine ⟨intArr (fallbackLines tb), by simp [analyze_error_with_ai, hk], ?_⟩
                rcases hfb with h1 | ⟨n, h2⟩
                · exact Or.inl h1
                · exact Or.inr (Or.inl ⟨n, h2⟩)
            | arr elems =>
                refine ⟨intArr (fallbackLines tb), by simp [analyze_error_with_ai, hk], ?_⟩
                rcases hfb with h1 | ⟨n, h2⟩
                · exact Or.inl h1
                · exact Or.inr (Or.inl ⟨n, h2⟩)

/-- C2 witness: `C2_never_raises` at a present credential and an
`Exception`-raising round-trip. -/
theorem C2_never_raises_witness :
    aiNoBaseExc (AIOutcome.fail netExc)
      ∧ ∃ v, analyze_error_with_ai (some "key") (AIOutcome.fail netExc) "x" "boom"
            = Except.ok v
          ∧ (v = Json.arr []
              ∨ (∃ n : Nat, v = Json.arr [Json.num (n : Int)])
              ∨ ∃ fields w,
                  AIOutcome.fail netExc = AIOutcome.respond (some (Json.obj fields))
                    ∧ jsonGet fields "error_lines" = some w ∧ v = w) :=
  ⟨rfl, C2_never_raises (some "key") (AIOutcome.fail netExc) "x" "boom" rfl⟩

/-- C3 counterexample: the submission `raise SystemExit` raises
`SystemExit`, which derives only from `BaseException`; the
`except Exception` clause at src/app.py line 64 does not catch it, so
the fault escapes `execute_python_code` instead of being converted to
`{success: false, output: <trace>}`. -/
theorem C3_counterexample :
    (execute_python_code { writes := "", outcome := some sysExitExc }
        { stdout := OutStream.real }).1
      = Except.error sysExitExc := rfl

/-- C3 (amended): every fault whose class derives from `Exception` is
recovered by the Executor into `{success: false, output: <formatted
trace>}` and never propagates; faults deriving only from
`BaseException` (such as `SystemExit` and `KeyboardInterrupt`) escape
the `except Exception` clause and propagate to the caller. -/
theorem C3_exceptions_recovered (beh : CodeBehavior) (s : PyState) (e : PyExc)
    (ho : beh.outcome = some e) (he : e.isException = true) :
    (execute_python_code beh s).1
      = Except.ok { success := false, output := e.trace } := by
  simp [execute_python_code, ho, he]

/-- C3 witness: `C3_exceptions_recovered` at the division-by-zero
scenario. -/
theorem C3_exceptions_recovered_witness :
    behPrintDiv.outcome = some zeroDivExc
      ∧ zeroDivExc.isException = true
      ∧ (execute_python_code behPrintDiv { stdout := OutStream.real }).1
          = Except.ok { success := false, output := zeroDivExc.trace } :=
  ⟨rfl, rfl,
    C3_exceptions_recovered behPrintDiv { stdout := OutStream.real } zeroDivExc rfl rfl⟩

/-- C4 counterexample: for `code = "print(1/0)"` with a credential
configured and a failing AI round-trip — the trace-pattern fallback is
the deciding path — the first `line <N>` match in the formatted trace
is the Executor's own `exec(code)` frame at line 60 of src/app.py, so
the response carries `error = [60]`, not `[1]` as the claim states. -/
theorem C4_counterexample :
    (code_interpreter (some "key") (AIOutcome.fail netExc) "print(1/0)"
        behPrintDiv { stdout := OutStream.real }).1
      = Except.ok { error := intArr [60], result := divTrace }
      ∧ intArr [60] ≠ intArr [1] :=
  ⟨rfl, by simp [intArr]⟩

set_option maxRecDepth 8000 in
/-- C4 (amended): for the submission `code = "print(1/0)"` the
response's `result` is the division-by-zero fault trace, which mentions
the fault and references line 1; `error` is `[1]` when the AI
round-trip succeeds reporting `{"error_lines": [1]}`; but when the
trace-pattern fallback decides (credential present, round-trip
failing), the first `line <N>` match is the `exec(code)` call site at
line 60 of src/app.py, so `error` is `[60]`; and with no credential it
is `[]`. -/
theorem C4_amended :
    containsText divTrace "ZeroDivisionError: division by zero" = true
      ∧ containsText divTrace "line 1" = true
      ∧ (code_interpreter (some "key")
            (AIOutcome.respond (some (Json.obj [("error_lines", intArr [1])])))
            "print(1/0)" behPrintDiv { stdout := OutStream.real }).1
          = Except.ok { error := intArr [1], result := divTrace }
      ∧ (code_interpreter (some "key") (AIOutcome.fail netExc) "print(1/0)"
            behPrintDiv { stdout := OutStream.real }).1
          = Except.ok { error := intArr [60], result := divTrace }
      ∧ (code_interpreter none (AIOutcome.respond none) "print(1/0)"
            behPrintDiv { stdout := OutStream.real }).1
          = Except.ok { error := Json.arr [], result := divTrace } :=
  ⟨rfl, rfl, rfl, rfl, rfl⟩

/-- C5: every submission that completes normally having written the
text `T` to the redirected stream yields the response
`{error: [], result: T}`, including the empty `T` of a submission that
writes nothing. -/
theorem C5_success_response (apiKey : Option String) (ai : AIOutcome)
    (code : String) (beh : CodeBehavior) (s : PyState)
    (h : beh.outcome = none) :
    (code_interpreter apiKey ai code beh s).1
      = Except.ok { error := Json.arr [], result := beh.writes } := by
  simp [code_interpreter, execute_python_code, h, writeOut]

/-- C5 witness: `C5_success_response` at a submission producing no
output, giving `{error: [], result: ""}`. -/
theorem C5_success_response_witness :
    ({ writes := "", outcome := none } : CodeBehavior).outcome = none
      ∧ (code_interpreter none (AIOutcome.respond none) "pass"
            { writes := "", outcome := none } { stdout := OutStream.real }).1
          = Except.ok { error := Json.arr [], result := "" } :=
  ⟨rfl,
    C5_success_response none (AIOutcome.respond none) "pass"
      { writes := "", outcome := none } { stdout := OutStream.real } rfl⟩

/-- C6: whenever the Executor reports a failure (a recovered
`Exception`-derived fault with trace `t`), the handler responds with
`result = t` and `error` exactly the value the localizer returns for
the submitted code and `t`. -/
theorem C6_failure_response (apiKey : Option String) (ai : AIOutcome)
    (code : String) (beh : CodeBehavior) (s : PyState) (e : PyExc) (v : Json)
    (ho : beh.outcome = some e) (he : e.isException = true)
    (ha : analyze_error_with_ai apiKey ai code e.trace = Except.ok v) :
    (code_interpreter apiKey ai code beh s).1
      = Except.ok { error := v, result := e.trace } := by
  simp [code_interpreter, execute_python_code, ho, he, ha]

/-- C6 witness: `C6_failure_response` at the division-by-zero scenario
with no credential, where the localizer returns `[]`. -/
theorem C6_failure_response_witness :
    behPrintDiv.outcome = some zeroDivExc
      ∧ zeroDivExc.isException = true
      ∧ analyze_error_with_ai none (AIOutcome.respond none) "print(1/0)"
          zeroDivExc.trace = Except.ok (Json.arr [])
      ∧ (code_interpreter none (AIOutcome.respond none) "print(1/0)" behPrintDiv
            { stdout := OutStream.real }).1
          = Except.ok { error := Json.arr [], result := zeroDivExc.trace } :=
  ⟨rfl, rfl, rfl,
    C6_failure_response none (AIOutcome.respond none) "print(1/0)" behPrintDiv
      { stdout := OutStream.real } zeroDivExc (Json.arr []) rfl rfl rfl⟩

/-- C7: with a credential present, when the AI round-trip raises an
`Exception` or returns a body that does not parse as JSON, the
localizer scans the trace for `line <digits>` and returns the first
matched number as a one-element sequence, or the empty sequence when
the pattern does not occur. -/
theorem C7_failure_fallback (apiKey : Option String) (ai : AIOutcome)
    (code tb : String) (hk : keyPresent apiKey = true)
    (hai : (∃ e, ai = AIOutcome.fail e ∧ e.isException = true)
            ∨ ai = AIOutcome.respond none) :
    analyze_error_with_ai apiKey ai code tb
      = Except.ok (match searchLine tb.data with
                   | some n => Json.arr [Json.num (n : Int)]
                   | none => Json.arr []) := by
  rw [← intArr_fallback]
  rcases hai with ⟨e, rfl, he⟩ | rfl
  · simp [analyze_error_with_ai, hk, he]
  · simp [analyze_error_with_ai, hk]

/-- C7 witness: `C7_failure_fallback` at a non-JSON response and a
trace whose first pattern match is `line 12`. -/
theorem C7_failure_fallback_witness :
    keyPresent (some "key") = true
      ∧ ((∃ e, AIOutcome.respond none = AIOutcome.fail e ∧ e.isException = true)
          ∨ (AIOutcome.respond (none : Option Json)) = AIOutcome.respond none)
      ∧ analyze_error_with_ai (some "key") (AIOutcome.respond none) "x" "a line 12 b"
          = Except.ok (Json.arr [Json.num 12]) :=
  ⟨rfl, Or.inr rfl,
    (C7_failure_fallback (some "key") (AIOutcome.respond none) "x" "a line 12 b"
        rfl (Or.inr rfl)).trans rfl⟩

/-- C8: with a credential present, when the AI round-trip succeeds and
its text parses as a JSON dictionary, the localizer returns the
dictionary's `error_lines` value verbatim, and the empty sequence when
the field is absent. -/
theorem C8_error_lines_verbatim (apiKey : Option String) (code tb : String)
    (fields : List (String × Json)) (hk : keyPresent apiKey = true) :
    analyze_error_with_ai apiKey (AIOutcome.respond (some (Json.obj fields))) code tb
      = Except.ok (match jsonGet fields "error_lines" with
                   | some v => v
                   | none => Json.arr []) := by
  cases hg : jsonGet fields "error_lines" <;>
    simp [analyze_error_with_ai, hk, hg]

/-- C8 witness: `C8_error_lines_verbatim` at the response
`{"error_lines": [3, 7]}` and a trace whose fallback value would have
been `[9]`: the verbatim value `[3, 7]` is returned. -/
theorem C8_error_lines_verbatim_witness :
    keyPresent (some "key") = true
      ∧ fallbackLines "line 9" = [9]
      ∧ analyze_error_with_ai (some "key")
          (AIOutcome.respond (some (Json.obj [("error_lines", intArr [3, 7])])))
          "x" "line 9"
          = Except.ok (intArr [3, 7]) :=
  ⟨rfl, rfl,
    (C8_error_lines_verbatim (some "key") "x" "line 9"
        [("error_lines", intArr [3, 7])] rfl).trans rfl⟩

/-- C9: the Executor restores the original `sys.stdout` before
returning, on the success path, the recovered-fault path, and the
propagating-fault path alike — the `finally` clause at src/app.py
lines 68-69 runs on every exit. -/
theorem C9_stdout_restored (beh : CodeBehavior) (s : PyState) :
    ((execute_python_code beh s).2).stdout = s.stdout := by
  rcases beh with ⟨w, o⟩
  cases o with
  | none => rfl
  | some e => cases he : e.isException <;> simp [execute_python_code, he]

/-- C10: output written to the capture buffer before a recovered fault
is discarded: the failure output is exactly the formatted fault trace,
independent of the text written before the fault (the buffer's value is
never read on the failure path). -/
theorem C10_partial_output_discarded (w1 w2 : String) (e : PyExc)
    (s1 s2 : PyState) (he : e.isException = true) :
    (execute_python_code { writes := w1, outcome := some e } s1).1
        = Except.ok { success := false, output := e.trace }
      ∧ (execute_python_code { writes := w1, outcome := some e } s1).1
        = (execute_python_code { writes := w2, outcome := some e } s2).1 := by
  constructor <;> simp [execute_python_code, he]

/-- C10 witness: `C10_partial_output_discarded` with text written
before the division-by-zero fault. -/
theorem C10_partial_output_discarded_witness :
    zeroDivExc.isException = true
      ∧ (execute_python_code { writes := "partial output", outcome := some zeroDivExc }
            { stdout := OutStream.real }).1
          = Except.ok { success := false, output := zeroDivExc.trace }
      ∧ (execute_python_code { writes := "partial output", outcome := some zeroDivExc }
            { stdout := OutStream.real }).1
          = (execute_python_code { writes := "", outcome := some zeroDivExc }
              { stdout := OutStream.real }).1 :=
  ⟨rfl,
    (C10_partial_output_discarded "partial output" "" zeroDivExc
        { stdout := OutStream.real } { stdout := OutStream.real } rfl).1,
    (C10_partial_output_discarded "partial output" "" zeroDivExc
        { stdout := OutStream.real } { stdout := OutStream.real } rfl).2⟩

end CodeInterp
